import Mathlib

/-!
# Verification of the travel-agent bot's startup and orchestration contract

Shallow embedding of `src/app.py` (module-level startup: state-backend
selection, tool-manifest assembly from the `tools/` directory, agent
provisioning, bot construction), together with spec-modelled definitions for
the orchestration components (thread resolution, run driver, tool dispatcher)
whose source modules are not part of the packaged sources.
-/

namespace TravelAgent

/-- An environment, as read by `os.getenv`: a variable is either unset
(`none`) or set to a string value. -/
abbrev Env : Type := String → Option String

/-- Python truthiness of an `os.getenv` result: `None` and the empty string
are falsy, every other string is truthy.  `app.py` guards the Cosmos branch
with `if os.getenv("AZURE_COSMOSDB_ENDPOINT"):`. -/
def truthy : Option String → Bool
  | none => false
  | some s => !(s = "")

/-! ## Conversation-history storage (`app.py` lines 77–93) -/

/-- The storage backend chosen at startup: either a
`CosmosDbPartitionedStorage` built from the Cosmos environment variables, or
the in-memory `MemoryStorage`. -/
inductive Storage where
  | cosmos (endpoint databaseId containerId authKey : Option String)
  | memory
deriving DecidableEq, Repr

/-- Whether the chosen backend is the durable Cosmos DB partitioned store. -/
def Storage.isCosmos : Storage → Bool
  | .cosmos _ _ _ _ => true
  | .memory => false

/-- `app.py` lines 77–89: `storage = CosmosDbPartitionedStorage(...)` when
`os.getenv("AZURE_COSMOSDB_ENDPOINT")` is truthy, else
`storage = MemoryStorage()`. -/
def selectStorage (env : Env) : Storage :=
  if truthy (env "AZURE_COSMOSDB_ENDPOINT") then
    .cosmos (env "AZURE_COSMOSDB_ENDPOINT") (env "AZURE_COSMOSDB_DATABASE_ID")
      (env "AZURE_COSMOSDB_CONTAINER_ID") (env "AZURE_COSMOSDB_AUTH_KEY")
  else
    .memory

/-- `UserState(storage)` — holds the storage instance it was built from. -/
structure UserState where
  storage : Storage
deriving DecidableEq, Repr

/-- `ConversationState(storage)` — holds the storage instance it was built
from. -/
structure ConversationState where
  storage : Storage
deriving DecidableEq, Repr

/-- `app.py` line 92: `user_state = UserState(storage)`. -/
def user_state (env : Env) : UserState := ⟨selectStorage env⟩

/-- `app.py` line 93: `conversation_state = ConversationState(storage)`. -/
def conversation_state (env : Env) : ConversationState := ⟨selectStorage env⟩

/-! ## JSON values and the tool manifest (`app.py` lines 100–115) -/

/-- A JSON value, the result of `json.loads` on a tool-descriptor file. -/
inductive Json where
  | null
  | bool (b : Bool)
  | num (n : Int)
  | str (s : String)
  | arr (elems : List Json)
  | obj (fields : List (String × Json))
deriving Inhabited

/-- An entry of the `options["tools"]` list handed to agent create/update:
either one of the built-in SDK tool definitions, or a parsed JSON descriptor
appended from the `tools/` directory. -/
inductive ToolDef where
  | codeInterpreter
  | fileSearch
  | declared (descriptor : Json)

/-- `app.py` lines 104–108: the initial value of `options["tools"]` is
`CodeInterpreterTool().definitions` followed by `FileSearchTool().definitions`
(each a one-element list in the SDK); the `BingGroundingTool` line is
commented out in the source. -/
def builtinTools : List ToolDef := [.codeInterpreter, .fileSearch]

/-- Python's str.endswith, as used by the descriptor-loading loop: whether
the filename carries the given suffix. -/
def pyEndsWith (s suffix : String) : Bool := suffix.data.isSuffixOf s.data

/-- `app.py` lines 112–115, the descriptor-loading loop, with the
accumulator `acc` playing the role of the growing `options["tools"]` list:

```python
for tool in os.listdir("tools"):
    if tool.endswith(".json"):
        with open(f"tools/{tool}", "r") as f:
            options["tools"].append(json.loads(f.read()))
```

A directory entry is a `(filename, contents)` pair; `parse` stands for the
stdlib `json.loads`, raising (returning `.error`) on invalid JSON, which
aborts the loop (and module import) at the first bad file. -/
def loadToolsLoop (parse : String → Except String Json) :
    List (String × String) → List ToolDef → Except String (List ToolDef)
  | [], acc => .ok acc
  | f :: fs, acc =>
    if pyEndsWith f.1 ".json" then
      match parse f.2 with
      | .error e => .error e
      | .ok j => loadToolsLoop parse fs (acc ++ [.declared j])
    else
      loadToolsLoop parse fs acc

/-- The whole tool-manifest assembly: built-ins, then the descriptor loop
over the startup snapshot of the `tools/` directory. -/
def loadAllTools (parse : String → Except String Json)
    (dir : List (String × String)) : Except String (List ToolDef) :=
  loadToolsLoop parse dir builtinTools

/-! ## Agent provisioning (`app.py` lines 98, 117–126) -/

/-- A listed agent: its backend id and its (possibly null) name. -/
structure Agent where
  id : String
  name : Option String
deriving DecidableEq, Repr

/-- The result of `project_client.agents.list_agents(limit=100)`: a page of
agents and the `has_more` pagination flag. -/
structure ListAgentsResult where
  data : List Agent
  has_more : Bool
deriving DecidableEq, Repr

/-- An observable side effect of the startup code on the agent backend:
`update_agent(**options)` with `options["assistant_id"] = id`, or
`create_agent(**options)`; each records the tool manifest it was passed. -/
inductive Effect where
  | updateAgent (assistantId : String) (tools : List ToolDef)
  | createAgent (tools : List ToolDef)

/-- `app.py` lines 117–126: raise on `has_more`; scan `agents.data` for the
first agent whose name equals `AZURE_OPENAI_AGENT_NAME`, update it (binding
`options["assistant_id"]` to its id) and `break`; if no match was found,
create the agent and bind `options["assistant_id"]` to the new agent's id
(`createdId`, assigned by the backend).  Returns the resolved assistant id
and the effect trace. -/
def provision (agentName : Option String) (createdId : String)
    (tools : List ToolDef) (agents : ListAgentsResult) :
    Except String String × List Effect :=
  if agents.has_more then
    (.error "Too many agents", [])
  else
    match agents.data.find? (fun a => a.name == agentName) with
    | some a => (.ok a.id, [.updateAgent a.id tools])
    | none => (.ok createdId, [.createAgent tools])

/-! ## Bot construction and the full startup sequence
(`app.py` lines 77–137) -/

/-- The `AssistantBot` as constructed on line 129, restricted to the
state-relevant constructor arguments (the SDK client handles and the dialog
are opaque external objects). -/
structure Bot where
  conversation_state : ConversationState
  user_state : UserState
  assistant_id : String

/-- Everything the module-level startup produces when it succeeds. -/
structure Startup where
  storage : Storage
  tools : List ToolDef
  assistant_id : String
  bot : Bot

/-- The module-level startup sequence of `app.py` in source order: storage
selection (77–93), tool-manifest assembly (100–115), agent provisioning
(117–126), bot construction (129–137).  An uncaught exception at any step
aborts the module import, so the result is `Except`; the second component
is the trace of agent create/update effects performed before the outcome. -/
def startup (env : Env) (parse : String → Except String Json)
    (dir : List (String × String)) (createdId : String)
    (agents : ListAgentsResult) : Except String Startup × List Effect :=
  let storage := selectStorage env
  match loadAllTools parse dir with
  | .error e => (.error e, [])
  | .ok tools =>
    match provision (env "AZURE_OPENAI_AGENT_NAME") createdId tools agents with
    | (.error e, tr) => (.error e, tr)
    | (.ok assistantId, tr) =>
      (.ok ⟨storage, tools, assistantId, ⟨⟨storage⟩, ⟨storage⟩, assistantId⟩⟩, tr)

/-- The tool manifest an agent-backend effect was handed. -/
def Effect.tools : Effect → List ToolDef
  | .updateAgent _ ts => ts
  | .createAgent ts => ts

/-! ## Tool classification over descriptors -/

/-- Field lookup in a JSON object's field list. -/
def lookupField : List (String × Json) → String → Option Json
  | [], _ => none
  | (k, v) :: rest, key => if k = key then some v else lookupField rest key

/-- The function name advertised by a declarative function-tool descriptor,
read from `descriptor["function"]["name"]`. -/
def functionName : Json → Option String
  | .obj fields =>
    match lookupField fields "function" with
    | some (.obj inner) =>
      match lookupField inner "name" with
      | some (.str n) => some n
      | _ => none
    | _ => none
  | _ => none

/-- A code-execution tool: the SDK's code-interpreter definition. -/
def isCodeExecutionTool : ToolDef → Bool
  | .codeInterpreter => true
  | _ => false

/-- A file-search tool: the SDK's file-search definition. -/
def isFileSearchTool : ToolDef → Bool
  | .fileSearch => true
  | _ => false

/-- A web-search tool: a declared descriptor whose function name is
`web_search`. -/
def isWebSearchTool : ToolDef → Bool
  | .declared j => functionName j == some "web_search"
  | _ => false

/-- A directory-lookup tool: a declared descriptor whose function name is
`query_directory`. -/
def isDirectoryLookupTool : ToolDef → Bool
  | .declared j => functionName j == some "query_directory"
  | _ => false

/-- Modelled from the spec: the parsed contents of the repository's
web-search descriptor in the `tools/` directory (the directory's files are
not under the packaged sources; per the spec the declaratively-described
external tools include a web-search tool delegating to the Bing client). -/
def webSearchDescriptor : Json :=
  .obj [("type", .str "function"),
        ("function", .obj [("name", .str "web_search")])]

/-- Modelled from the spec: the parsed contents of the repository's
directory-lookup descriptor in the `tools/` directory (not under the
packaged sources; per the spec the external tools include a directory-lookup
tool delegating to the Graph client). -/
def queryDirectoryDescriptor : Json :=
  .obj [("type", .str "function"),
        ("function", .obj [("name", .str "query_directory")])]

/-- Modelled from the spec: the startup snapshot of the `tools/` directory —
one JSON descriptor file per external tool (web search and directory
lookup).  File contents are abstract tokens which `specParse` maps to their
parsed JSON values. -/
def specToolsDir : List (String × String) :=
  [("web_search.json", "web_search descriptor text"),
   ("query_directory.json", "query_directory descriptor text")]

/-- Modelled from the spec: `json.loads` restricted to the two descriptor
files of `specToolsDir`. -/
def specParse : String → Except String Json := fun s =>
  if s = "web_search descriptor text" then .ok webSearchDescriptor
  else if s = "query_directory descriptor text" then .ok queryDirectoryDescriptor
  else .error "invalid JSON"

/-- The manifest assembled from the built-ins and the spec-modelled
`tools/` directory. -/
def specManifest : List ToolDef :=
  [.codeInterpreter, .fileSearch,
   .declared webSearchDescriptor, .declared queryDirectoryDescriptor]

/-! ## Thread resolution (Turn Orchestrator, spec §4.1) -/

/-- Modelled from the spec: the State Store's persisted mapping from a
conversation id to the conversation's remote Thread id (the `bots` module
holding the Turn Orchestrator is not under the packaged sources).  The
`Option`-valued function records at most one live Thread per conversation. -/
structure ThreadStore where
  threadOf : String → Option String

/-- Modelled from the spec: §4.1 thread resolution — fetch the Conversation
Session's Thread id from the State Store; if absent, create a new remote
Thread (its backend-assigned id is `fresh`) and persist the mapping.
Returns the Thread id used by the turn, the updated store, and whether a
new Thread was created. -/
def resolveThread (st : ThreadStore) (conv fresh : String) :
    String × ThreadStore × Bool :=
  match st.threadOf conv with
  | some t => (t, st, false)
  | none => (fresh, ⟨fun c => if c = conv then some fresh else st.threadOf c⟩, true)

/-- A sequence of turns, each `(conversation id, fresh thread id)` where the
fresh id is the one the backend would assign were a Thread created.  Returns
the final store and, per turn, `(conversation id, thread id used, created?)`. -/
def runTurns (st : ThreadStore) :
    List (String × String) → ThreadStore × List (String × String × Bool)
  | [] => (st, [])
  | (conv, fresh) :: rest =>
    let step := resolveThread st conv fresh
    let tail := runTurns step.2.1 rest
    (tail.1, (conv, step.1, step.2.2) :: tail.2)

/-- How many turns of the event list created a new Thread for `conv`. -/
def createsFor (conv : String) (evs : List (String × String × Bool)) : Nat :=
  (evs.filter (fun e => e.1 == conv && e.2.2)).length

/-! ## Tool Dispatcher and Run Driver resume step (spec §4.2–4.4) -/

/-- A Tool Call reported by a `requires_action` Run: call id, tool name,
argument payload. -/
structure ToolCall where
  id : String
  name : String
  args : String
deriving DecidableEq, Repr

/-- A Tool Output's payload: a success result or a structured error. -/
inductive OutputPayload where
  | success (result : String)
  | error (message : String)
deriving DecidableEq, Repr

/-- A Tool Output, keyed by the call id it answers. -/
structure ToolOutput where
  tool_call_id : String
  payload : OutputPayload
deriving DecidableEq, Repr

/-- Modelled from the spec: the outcome of running a tool handler — a
result, a raised exception, or a timeout of the time-bounded call. -/
inductive HandlerOutcome where
  | success (result : String)
  | raised (message : String)
  | timeout
deriving DecidableEq, Repr

/-- Modelled from the spec: a registry entry — the tool's declared argument
schema (as a validation predicate) and its handler. -/
structure RegisteredTool where
  schemaOk : String → Bool
  run : String → HandlerOutcome

/-- Modelled from the spec: §4.4 `invoke` — resolve the tool name in the
registry; validate arguments against the schema before invocation (a
validation failure produces an error Tool Output without invoking the
handler); run the time-bounded handler, converting an exception or timeout
into a structured error Tool Output for this call id.  Total: no failure
escapes to the Run Driver. -/
def invoke (registry : String → Option RegisteredTool) (tc : ToolCall) :
    ToolOutput :=
  match registry tc.name with
  | none => ⟨tc.id, .error "unknown tool"⟩
  | some t =>
    if t.schemaOk tc.args then
      match t.run tc.args with
      | .success r => ⟨tc.id, .success r⟩
      | .raised m => ⟨tc.id, .error m⟩
      | .timeout => ⟨tc.id, .error "handler timeout"⟩
    else ⟨tc.id, .error "schema validation failed"⟩

/-- Modelled from the spec: §4.2 step 3 — collect one Tool Output per
pending Tool Call, in order. -/
def collectOutputs (registry : String → Option RegisteredTool) :
    List ToolCall → List ToolOutput
  | [] => []
  | tc :: rest => invoke registry tc :: collectOutputs registry rest

/-- Modelled from the spec: the Run Driver's resume behaviour for one
`requires_action` episode — all collected outputs are submitted as a single
resume action, and with zero pending calls no resume occurs. -/
def resumeSubmissions (registry : String → Option RegisteredTool)
    (pending : List ToolCall) : List (List ToolOutput) :=
  if pending.isEmpty then [] else [collectOutputs registry pending]

/-! ## Concrete instances used in witnesses and counterexamples -/

/-- The empty environment: no variables set. -/
def envNone : Env := fun _ => none

/-- An environment configuring only the agent name. -/
def env1 : Env := fun k =>
  if k = "AZURE_OPENAI_AGENT_NAME" then some "travel-agent" else none

/-- An environment with the full Cosmos DB configuration set. -/
def cosmosEnv : Env := fun k =>
  if k = "AZURE_COSMOSDB_ENDPOINT" then some "https://cosmos.example"
  else if k = "AZURE_COSMOSDB_DATABASE_ID" then some "db"
  else if k = "AZURE_COSMOSDB_CONTAINER_ID" then some "hist"
  else if k = "AZURE_COSMOSDB_AUTH_KEY" then some "key"
  else none

/-- An environment where the Cosmos endpoint variable is set to the empty
string. -/
def emptyEndpointEnv : Env := fun k =>
  if k = "AZURE_COSMOSDB_ENDPOINT" then some "" else none

/-- A parse function that wraps every file's contents as a JSON string. -/
def parse0 : String → Except String Json := fun s => .ok (.str s)

/-- The parsed value `parse0` assigns to a directory entry. -/
def pj0 : String × String → Json := fun f => .str f.2

/-- A tools directory with two descriptor files and one non-JSON file. -/
def dir0 : List (String × String) :=
  [("alpha.json", "A"), ("readme.txt", "ignored"), ("beta.json", "B")]

/-- A parse function that rejects the contents "BAD". -/
def parseBad : String → Except String Json := fun s =>
  if s = "BAD" then .error "boom" else .ok .null

/-- A tools directory whose second descriptor file is invalid JSON. -/
def dirBad : List (String × String) := [("good.json", "G"), ("bad.json", "BAD")]

/-- A handler that accepts any arguments and echoes them back. -/
def toolEcho : RegisteredTool := ⟨fun _ => true, fun a => .success a⟩

/-- A handler that raises on every invocation. -/
def toolBoom : RegisteredTool := ⟨fun _ => true, fun _ => .raised "kaput"⟩

/-- A registry with one echoing tool and one raising tool. -/
def registry0 : String → Option RegisteredTool := fun n =>
  if n = "echo" then some toolEcho
  else if n = "boomtool" then some toolBoom
  else none

/-- A pending batch whose second call hits the raising handler. -/
def pending0 : List ToolCall := [⟨"id1", "echo", "x"⟩, ⟨"id2", "boomtool", "y"⟩]

/-- A tool call that resolves to the raising handler. -/
def tcBoom : ToolCall := ⟨"callA", "boomtool", "args"⟩

/-- A thread store already holding a thread for conversation c1. -/
def wStore : ThreadStore := ⟨fun c => if c = "c1" then some "t1" else none⟩

/-- Three turns: two for c1 (which already has a thread), one for c2. -/
def wTurns : List (String × String) := [("c1", "f1"), ("c2", "f2"), ("c1", "f3")]

/-! ## Helper lemmas -/

/-- List.find? returns the first element satisfying the predicate: with a
prefix of non-matches and then a match, it returns that match regardless of
what follows. -/
theorem find_first_of_prefix_none {α : Type} (p : α → Bool) (pre : List α)
    (a : α) (post : List α) (hpre : ∀ b ∈ pre, p b = false) (ha : p a = true) :
    (pre ++ a :: post).find? p = some a := by
  induction pre with
  | nil => simpa using List.find?_cons_of_pos post ha
  | cons b bs ih =>
    have hb : p b = false := hpre b (List.mem_cons_self b bs)
    have hstep := List.find?_cons_of_neg (p := p) (a := b) (bs ++ a :: post)
      (by simp [hb])
    simpa [hstep] using ih (fun c hc => hpre c (List.mem_cons_of_mem _ hc))

/-- When every descriptor file parses, the loading loop appends exactly one
declared tool per .json file, in directory order, to the accumulator. -/
theorem loadToolsLoop_eq_of_all_ok (parse : String → Except String Json)
    (pj : String × String → Json) (fs : List (String × String)) :
    ∀ acc : List ToolDef,
    (∀ f ∈ fs, pyEndsWith f.1 ".json" = true → parse f.2 = .ok (pj f)) →
    loadToolsLoop parse fs acc =
      .ok (acc ++ (fs.filter (fun f => pyEndsWith f.1 ".json")).map
        (fun f => ToolDef.declared (pj f))) := by
  induction fs with
  | nil => intro acc _; simp [loadToolsLoop]
  | cons f fs ih =>
    intro acc hp
    by_cases h : pyEndsWith f.1 ".json" = true
    · have hf : parse f.2 = .ok (pj f) := hp f (List.mem_cons_self f fs) h
      rw [loadToolsLoop, if_pos h, hf]
      show loadToolsLoop parse fs (acc ++ [.declared (pj f)]) = _
      have hsub : ∀ g ∈ fs, pyEndsWith g.1 ".json" = true → parse g.2 = .ok (pj g) :=
        fun g hg hj => hp g (List.mem_cons_of_mem _ hg) hj
      rw [ih (acc ++ [ToolDef.declared (pj f)]) hsub]
      simp [List.filter_cons, h]
    · have h' : pyEndsWith f.1 ".json" = false := by
        simpa using h
      rw [loadToolsLoop, if_neg (by simp [h']),
        ih acc (fun g hg hj => hp g (List.mem_cons_of_mem _ hg) hj)]
      simp [List.filter_cons, h']

/-- If some .json file in the directory fails to parse, the loading loop
aborts with a parse error, whatever the accumulator. -/
theorem loadToolsLoop_error_of_bad (parse : String → Except String Json)
    (f : String × String) (e : String) (fs : List (String × String)) :
    ∀ acc : List ToolDef,
    f ∈ fs → pyEndsWith f.1 ".json" = true → parse f.2 = .error e →
    ∃ e', loadToolsLoop parse fs acc = .error e' := by
  induction fs with
  | nil => intro acc hmem; cases hmem
  | cons g gs ih =>
    intro acc hmem hjson hbad
    rcases List.mem_cons.mp hmem with hg | hg
    · subst hg
      exact ⟨e, by rw [loadToolsLoop, if_pos hjson, hbad]⟩
    · by_cases hgj : pyEndsWith g.1 ".json" = true
      · cases hpg : parse g.2 with
        | error e2 => exact ⟨e2, by rw [loadToolsLoop, if_pos hgj, hpg]⟩
        | ok j =>
          obtain ⟨e', he'⟩ := ih _ hg hjson hbad
          exact ⟨e', by rw [loadToolsLoop, if_pos hgj, hpg]; exact he'⟩
      · obtain ⟨e', he'⟩ := ih acc hg hjson hbad
        exact ⟨e', by rw [loadToolsLoop, if_neg hgj]; exact he'⟩

/-- Every agent-backend effect of provisioning carries exactly the tool
manifest it was given. -/
theorem provision_effect_tools (agentName : Option String) (createdId : String)
    (tools : List ToolDef) (agents : ListAgentsResult) :
    ∀ eff ∈ (provision agentName createdId tools agents).2, eff.tools = tools := by
  intro eff heff
  unfold provision at heff
  by_cases h : agents.has_more = true
  · simp [h] at heff
  · simp only [h] at heff
    rcases hf : agents.data.find? (fun a => a.name == agentName) with _ | a <;>
      rw [hf] at heff <;> simp at heff <;> subst heff <;> rfl

/-- When the manifest loads successfully, the startup effect trace is the
provisioning trace over that manifest. -/
theorem startup_effects_eq (env : Env) (parse : String → Except String Json)
    (dir : List (String × String)) (createdId : String)
    (agents : ListAgentsResult) (ts : List ToolDef)
    (ht : loadAllTools parse dir = .ok ts) :
    (startup env parse dir createdId agents).2 =
      (provision (env "AZURE_OPENAI_AGENT_NAME") createdId ts agents).2 := by
  rcases hp : provision (env "AZURE_OPENAI_AGENT_NAME") createdId ts agents
    with ⟨res, tr⟩
  cases res <;> simp [startup, ht, hp]

/-- The dispatcher always answers with the call id it was asked about. -/
theorem invoke_tool_call_id (registry : String → Option RegisteredTool)
    (tc : ToolCall) : (invoke registry tc).tool_call_id = tc.id := by
  unfold invoke
  split
  · rfl
  · split
    · split <;> rfl
    · rfl

/-- One output per pending call. -/
theorem collectOutputs_length (registry : String → Option RegisteredTool)
    (tcs : List ToolCall) :
    (collectOutputs registry tcs).length = tcs.length := by
  induction tcs with
  | nil => rfl
  | cons tc rest ih => simp [collectOutputs, ih]

/-- The outputs are keyed by the pending call ids, in order. -/
theorem collectOutputs_map_id (registry : String → Option RegisteredTool)
    (tcs : List ToolCall) :
    (collectOutputs registry tcs).map ToolOutput.tool_call_id =
      tcs.map ToolCall.id := by
  induction tcs with
  | nil => rfl
  | cons tc rest ih => simp [collectOutputs, ih, invoke_tool_call_id]

/-- Collection distributes over batch concatenation: each call's output is
computed independently of the rest of the batch. -/
theorem collectOutputs_append (registry : String → Option RegisteredTool)
    (l₁ l₂ : List ToolCall) :
    collectOutputs registry (l₁ ++ l₂) =
      collectOutputs registry l₁ ++ collectOutputs registry l₂ := by
  induction l₁ with
  | nil => rfl
  | cons tc rest ih => simp [collectOutputs, ih]

/-- Once a conversation has a persisted thread, any sequence of further turns
keeps that thread, creates no new one for it, and uses it on every turn of
that conversation. -/
theorem runTurns_stable (conv t : String) (turns : List (String × String)) :
    ∀ st : ThreadStore, st.threadOf conv = some t →
    (runTurns st turns).1.threadOf conv = some t ∧
    createsFor conv (runTurns st turns).2 = 0 ∧
    ∀ e ∈ (runTurns st turns).2, e.1 = conv → e.2.1 = t := by
  induction turns with
  | nil =>
    intro st h
    refine ⟨h, rfl, ?_⟩
    intro e he
    cases he
  | cons turn rest ih =>
    intro st h
    obtain ⟨c, fresh⟩ := turn
    by_cases hc : c = conv
    · subst hc
      have hres : resolveThread st c fresh = (t, st, false) := by
        rw [resolveThread, h]
      obtain ⟨h1, h2, h3⟩ := ih st h
      rw [runTurns, hres]
      refine ⟨h1, ?_, ?_⟩
      · simpa [createsFor, List.filter_cons] using h2
      · intro e he hconv
        rcases List.mem_cons.mp he with he | he
        · subst he; rfl
        · exact h3 e he hconv
    · cases hst : st.threadOf c with
      | some t2 =>
        have hres : resolveThread st c fresh = (t2, st, false) := by
          rw [resolveThread, hst]
        obtain ⟨h1, h2, h3⟩ := ih st h
        rw [runTurns, hres]
        refine ⟨h1, ?_, ?_⟩
        · simpa [createsFor, List.filter_cons, hc] using h2
        · intro e he hconv
          rcases List.mem_cons.mp he with he | he
          · subst he; exact absurd hconv hc
          · exact h3 e he hconv
      | none =>
        have hres : resolveThread st c fresh =
            (fresh, ⟨fun x => if x = c then some fresh else st.threadOf x⟩, true) := by
          rw [resolveThread, hst]
        have hst' : (ThreadStore.mk
            (fun x => if x = c then some fresh else st.threadOf x)).threadOf conv
            = some t := by
          show (if conv = c then some fresh else st.threadOf conv) = some t
          rw [if_neg (fun hx : conv = c => hc hx.symm)]
          exact h
        obtain ⟨h1, h2, h3⟩ := ih _ hst'
        rw [runTurns, hres]
        refine ⟨h1, ?_, ?_⟩
        · simpa [createsFor, List.filter_cons, hc] using h2
        · intro e he hconv
          rcases List.mem_cons.mp he with he | he
          · subst he; exact absurd hconv hc
          · exact h3 e he hconv

/-- Over any sequence of turns, at most one thread is ever created for a
given conversation. -/
theorem runTurns_creates_le_one (conv : String)
    (turns : List (String × String)) :
    ∀ st : ThreadStore, createsFor conv (runTurns st turns).2 ≤ 1 := by
  induction turns with
  | nil => intro st; simp [runTurns, createsFor]
  | cons turn rest ih =>
    intro st
    obtain ⟨c, fresh⟩ := turn
    cases hst : st.threadOf c with
    | some t =>
      have hres : resolveThread st c fresh = (t, st, false) := by
        rw [resolveThread, hst]
      rw [runTurns, hres]
      calc createsFor conv ((c, t, false) :: (runTurns st rest).2)
          = createsFor conv (runTurns st rest).2 := by
            simp [createsFor, List.filter_cons]
        _ ≤ 1 := ih st
    | none =>
      have hres : resolveThread st c fresh =
          (fresh, ⟨fun x => if x = c then some fresh else st.threadOf x⟩, true) := by
        rw [resolveThread, hst]
      rw [runTurns, hres]
      by_cases hc : c = conv
      · subst hc
        have hzero := (runTurns_stable c fresh rest
          ⟨fun x => if x = c then some fresh else st.threadOf x⟩ (by simp)).2.1
        have : createsFor c ((c, fresh, true) ::
            (runTurns ⟨fun x => if x = c then some fresh else st.threadOf x⟩ rest).2) =
            createsFor c
              (runTurns ⟨fun x => if x = c then some fresh else st.threadOf x⟩ rest).2 + 1 := by
          simp [createsFor, List.filter_cons]
        rw [this, hzero]
      · calc createsFor conv ((c, fresh, true) ::
            (runTurns ⟨fun x => if x = c then some fresh else st.threadOf x⟩ rest).2)
            = createsFor conv
              (runTurns ⟨fun x => if x = c then some fresh else st.threadOf x⟩ rest).2 := by
              simp [createsFor, List.filter_cons, hc]
          _ ≤ 1 := ih _

/-! ## Claim theorems -/

/-- Claim C1, counterexample: with the listing reporting two agents that both
carry the configured name (and has_more false), the provisioning step does
not fail — it succeeds and updates the first match, i.e. it picks one rather
than raising. -/
theorem duplicate_agent_name_counterexample :
    provision (some "travel-agent") "new-id" builtinTools
        ⟨[⟨"a1", some "travel-agent"⟩, ⟨"a2", some "travel-agent"⟩], false⟩ =
      (.ok "a1", [.updateAgent "a1" builtinTools]) := rfl

/-- Claim C1 (amended): the provisioning step enforces the hard cap — if the
listing reports has_more, it raises "Too many agents" before any agent is
created or updated (empty effect trace) — and when the configured name
matches more than one listed agent it deterministically updates the first
match rather than failing. -/
theorem provision_cap_and_first_match (name : Option String)
    (createdId : String) (tools : List ToolDef) (agents : ListAgentsResult) :
    (agents.has_more = true →
      provision name createdId tools agents = (.error "Too many agents", [])) ∧
    (∀ pre a post, agents.has_more = false →
      agents.data = pre ++ a :: post →
      (∀ b ∈ pre, (b.name == name) = false) →
      (a.name == name) = true →
      provision name createdId tools agents =
        (.ok a.id, [.updateAgent a.id tools])) := by
  constructor
  · intro h
    simp [provision, h]
  · intro pre a post hm hd hpre ha
    have hfind : agents.data.find? (fun b => b.name == name) = some a := by
      rw [hd]
      exact find_first_of_prefix_none _ pre a post hpre ha
    simp [provision, hm, hfind]

/-- Claim C1 witness: the cap branch at a listing with has_more, and the
first-match branch at a listing with two same-named agents. -/
theorem provision_cap_and_first_match_witness :
    provision (some "travel-agent") "cid" builtinTools ⟨[], true⟩ =
      (.error "Too many agents", []) ∧
    provision (some "travel-agent") "cid" builtinTools
        ⟨[⟨"a1", some "other"⟩, ⟨"a2", some "travel-agent"⟩,
          ⟨"a3", some "travel-agent"⟩], false⟩ =
      (.ok "a2", [.updateAgent "a2" builtinTools]) :=
  ⟨(provision_cap_and_first_match (some "travel-agent") "cid" builtinTools
      ⟨[], true⟩).1 rfl,
   (provision_cap_and_first_match (some "travel-agent") "cid" builtinTools
      ⟨[⟨"a1", some "other"⟩, ⟨"a2", some "travel-agent"⟩,
        ⟨"a3", some "travel-agent"⟩], false⟩).2
     [⟨"a1", some "other"⟩] ⟨"a2", some "travel-agent"⟩
     [⟨"a3", some "travel-agent"⟩] rfl rfl (by decide) (by decide)⟩

/-- Claim C2: when the manifest loads and the listing is within the cap,
provisioning is create-or-update and resolves a single agent id: if some
listed agent carries the configured name, that agent is updated and nothing
is created; otherwise exactly one create happens; in both cases the resolved
assistant id is the resulting agent's id and the bot is constructed with it. -/
theorem startup_create_or_update (env : Env)
    (parse : String → Except String Json) (dir : List (String × String))
    (createdId : String) (agents : ListAgentsResult) (ts : List ToolDef)
    (ht : loadAllTools parse dir = .ok ts) (hm : agents.has_more = false) :
    ((∃ a ∈ agents.data, (a.name == env "AZURE_OPENAI_AGENT_NAME") = true) →
      ∃ a ∈ agents.data, (a.name == env "AZURE_OPENAI_AGENT_NAME") = true ∧
        startup env parse dir createdId agents =
          (.ok ⟨selectStorage env, ts, a.id,
            ⟨⟨selectStorage env⟩, ⟨selectStorage env⟩, a.id⟩⟩,
           [.updateAgent a.id ts])) ∧
    ((∀ a ∈ agents.data, (a.name == env "AZURE_OPENAI_AGENT_NAME") = false) →
      startup env parse dir createdId agents =
        (.ok ⟨selectStorage env, ts, createdId,
          ⟨⟨selectStorage env⟩, ⟨selectStorage env⟩, createdId⟩⟩,
         [.createAgent ts])) := by
  constructor
  · rintro ⟨a0, ha0, hp0⟩
    have hsome : (agents.data.find?
        (fun b => b.name == env "AZURE_OPENAI_AGENT_NAME")).isSome := by
      rw [List.find?_isSome]
      exact ⟨a0, ha0, hp0⟩
    obtain ⟨b, hb⟩ := Option.isSome_iff_exists.mp hsome
    have hpb : (b.name == env "AZURE_OPENAI_AGENT_NAME") = true := by
      simpa using List.find?_some hb
    refine ⟨b, List.mem_of_find?_eq_some hb, hpb, ?_⟩
    simp [startup, ht, provision, hm, hb]
  · intro hall
    have hnone : agents.data.find?
        (fun b => b.name == env "AZURE_OPENAI_AGENT_NAME") = none := by
      rw [List.find?_eq_none]
      intro x hx
      simp [hall x hx]
    simp [startup, ht, provision, hm, hnone]

/-- Claim C2 witness: the update branch at a singleton listing carrying the
configured name, and the create branch at a listing without it. -/
theorem startup_create_or_update_witness :
    startup env1 parse0 [] "cid" ⟨[⟨"b1", some "travel-agent"⟩], false⟩ =
      (.ok ⟨selectStorage env1, builtinTools, "b1",
        ⟨⟨selectStorage env1⟩, ⟨selectStorage env1⟩, "b1"⟩⟩,
       [.updateAgent "b1" builtinTools]) ∧
    startup env1 parse0 [] "cid" ⟨[⟨"b1", some "other"⟩], false⟩ =
      (.ok ⟨selectStorage env1, builtinTools, "cid",
        ⟨⟨selectStorage env1⟩, ⟨selectStorage env1⟩, "cid"⟩⟩,
       [.createAgent builtinTools]) := by
  constructor
  · obtain ⟨a, ha, hpa, hs⟩ := (startup_create_or_update env1 parse0 [] "cid"
      ⟨[⟨"b1", some "travel-agent"⟩], false⟩ builtinTools rfl rfl).1
      ⟨⟨"b1", some "travel-agent"⟩, by decide, by decide⟩
    rw [List.mem_singleton] at ha
    subst ha
    exact hs
  · exact (startup_create_or_update env1 parse0 [] "cid"
      ⟨[⟨"b1", some "other"⟩], false⟩ builtinTools rfl rfl).2 (by decide)

/-- Claim C3, counterexample: with AZURE_COSMOSDB_ENDPOINT set to the empty
string — set, but falsy in Python — the code takes the in-memory branch, not
the Cosmos branch, although the variable is set. -/
theorem storage_selection_counterexample :
    (emptyEndpointEnv "AZURE_COSMOSDB_ENDPOINT").isSome = true ∧
    (selectStorage emptyEndpointEnv).isCosmos = false ∧
    selectStorage emptyEndpointEnv = .memory :=
  ⟨rfl, rfl, rfl⟩

/-- Claim C3 (amended): if AZURE_COSMOSDB_ENDPOINT is set to a non-empty
value (Python-truthy), the storage is the Cosmos DB partitioned store
configured from the Cosmos environment variables; if it is unset or empty,
the storage is the in-memory backend; and the same storage value backs both
UserState and ConversationState. -/
theorem storage_backend_selection (env : Env) :
    (truthy (env "AZURE_COSMOSDB_ENDPOINT") = true →
      selectStorage env = .cosmos (env "AZURE_COSMOSDB_ENDPOINT")
        (env "AZURE_COSMOSDB_DATABASE_ID") (env "AZURE_COSMOSDB_CONTAINER_ID")
        (env "AZURE_COSMOSDB_AUTH_KEY")) ∧
    (truthy (env "AZURE_COSMOSDB_ENDPOINT") = false →
      selectStorage env = .memory) ∧
    (user_state env).storage = (conversation_state env).storage :=
  ⟨fun h => by rw [selectStorage, if_pos h],
   fun h => by rw [selectStorage, if_neg (by simp [h])],
   rfl⟩

/-- Claim C3 witness: the Cosmos branch at a fully configured environment and
the memory branch at the empty-endpoint environment. -/
theorem storage_backend_selection_witness :
    selectStorage cosmosEnv = .cosmos (cosmosEnv "AZURE_COSMOSDB_ENDPOINT")
      (cosmosEnv "AZURE_COSMOSDB_DATABASE_ID")
      (cosmosEnv "AZURE_COSMOSDB_CONTAINER_ID")
      (cosmosEnv "AZURE_COSMOSDB_AUTH_KEY") ∧
    selectStorage emptyEndpointEnv = .memory :=
  ⟨(storage_backend_selection cosmosEnv).1 (by decide),
   (storage_backend_selection emptyEndpointEnv).2.1 (by decide)⟩

/-- Claim C4: the tool manifest is assembled from the built-in definitions
(code interpreter, file search) followed by one entry per .json file of the
tools directory in order (parsed as JSON); non-.json files contribute
nothing; and the assembled list is exactly what every agent create/update
effect of startup is passed. -/
theorem tool_manifest_assembly (env : Env)
    (parse : String → Except String Json) (dir : List (String × String))
    (createdId : String) (agents : ListAgentsResult)
    (pj : String × String → Json)
    (hp : ∀ f ∈ dir, pyEndsWith f.1 ".json" = true → parse f.2 = .ok (pj f)) :
    loadAllTools parse dir =
      .ok (builtinTools ++ (dir.filter (fun f => pyEndsWith f.1 ".json")).map
        (fun f => ToolDef.declared (pj f))) ∧
    ∀ eff ∈ (startup env parse dir createdId agents).2,
      eff.tools = builtinTools ++
        (dir.filter (fun f => pyEndsWith f.1 ".json")).map
          (fun f => ToolDef.declared (pj f)) := by
  have hload : loadAllTools parse dir =
      .ok (builtinTools ++ (dir.filter (fun f => pyEndsWith f.1 ".json")).map
        (fun f => ToolDef.declared (pj f))) :=
    loadToolsLoop_eq_of_all_ok parse pj dir builtinTools hp
  refine ⟨hload, ?_⟩
  intro eff heff
  rw [startup_effects_eq env parse dir createdId agents _ hload] at heff
  exact provision_effect_tools _ createdId _ agents eff heff

/-- Claim C4 witness: the assembled manifest over a directory with two
descriptor files and one non-JSON file. -/
theorem tool_manifest_assembly_witness :
    loadAllTools parse0 dir0 =
      .ok (builtinTools ++ (dir0.filter (fun f => pyEndsWith f.1 ".json")).map
        (fun f => ToolDef.declared (pj0 f))) :=
  (tool_manifest_assembly envNone parse0 dir0 "cid" ⟨[], false⟩ pj0
    (fun _ _ _ => rfl)).1

/-- Claim C5 (tools directory modelled from the spec): the manifest handed to
agent create/update contains a code-execution tool, a file-search tool, a
web-search tool and a directory-lookup tool. -/
theorem manifest_four_tool_classes :
    loadAllTools specParse specToolsDir = .ok specManifest ∧
    (startup envNone specParse specToolsDir "new-agent" ⟨[], false⟩).2 =
      [.createAgent specManifest] ∧
    specManifest.any isCodeExecutionTool = true ∧
    specManifest.any isFileSearchTool = true ∧
    specManifest.any isWebSearchTool = true ∧
    specManifest.any isDirectoryLookupTool = true :=
  ⟨rfl, rfl, rfl, rfl, rfl, rfl⟩

/-- Claim C6 (orchestrator modelled from the spec): thread stability — once a
conversation has a persisted thread, every later turn reuses exactly that
thread and creates no new one; over any sequence of turns at most one thread
is ever created for a conversation; and the store maps each conversation to
at most one live thread by construction. -/
theorem thread_stability (st : ThreadStore) (turns : List (String × String))
    (conv : String) :
    (∀ t, st.threadOf conv = some t →
      (runTurns st turns).1.threadOf conv = some t ∧
      createsFor conv (runTurns st turns).2 = 0 ∧
      ∀ e ∈ (runTurns st turns).2, e.1 = conv → e.2.1 = t) ∧
    createsFor conv (runTurns st turns).2 ≤ 1 :=
  ⟨fun t ht => runTurns_stable conv t turns st ht,
   runTurns_creates_le_one conv turns st⟩

/-- Claim C6 witness: conversation c1 starts with thread t1; across three
turns it keeps t1 and creates nothing, while c2 creates at most once. -/
theorem thread_stability_witness :
    (runTurns wStore wTurns).1.threadOf "c1" = some "t1" ∧
    createsFor "c1" (runTurns wStore wTurns).2 = 0 ∧
    createsFor "c2" (runTurns wStore wTurns).2 ≤ 1 :=
  ⟨((thread_stability wStore wTurns "c1").1 "t1" rfl).1,
   ((thread_stability wStore wTurns "c1").1 "t1" rfl).2.1,
   (thread_stability wStore wTurns "c2").2⟩

/-- Claim C7 (run driver modelled from the spec): a requires_action episode
with N pending tool calls yields exactly one resume submission carrying
exactly N outputs whose call ids are exactly the pending call ids in order —
a bijection keyed by call id, answering each call id with its multiplicity —
while N = 0 produces no resume; this holds for every registry, including
batches in which a handler fails. -/
theorem resume_outputs_bijection (registry : String → Option RegisteredTool)
    (pending : List ToolCall) :
    (pending = [] → resumeSubmissions registry pending = []) ∧
    (pending ≠ [] →
      resumeSubmissions registry pending = [collectOutputs registry pending] ∧
      (collectOutputs registry pending).length = pending.length ∧
      (collectOutputs registry pending).map ToolOutput.tool_call_id =
        pending.map ToolCall.id ∧
      ∀ cid : String,
        (collectOutputs registry pending).countP
            (fun o => o.tool_call_id == cid) =
          pending.countP (fun c => c.id == cid)) := by
  constructor
  · intro h
    subst h
    rfl
  · intro h
    refine ⟨?_, collectOutputs_length registry pending,
      collectOutputs_map_id registry pending, ?_⟩
    · cases pending with
      | nil => exact absurd rfl h
      | cons tc rest => rfl
    · intro cid
      have h1 := congrArg (List.countP (fun s => s == cid))
        (collectOutputs_map_id registry pending)
      simpa [List.countP_map, Function.comp] using h1

/-- Claim C7 witness: a two-call batch whose second handler raises still
yields a single submission answering both call ids in order. -/
theorem resume_outputs_bijection_witness :
    resumeSubmissions registry0 pending0 = [collectOutputs registry0 pending0] ∧
    (collectOutputs registry0 pending0).map ToolOutput.tool_call_id =
      pending0.map ToolCall.id :=
  ⟨((resume_outputs_bijection registry0 pending0).2 (by decide)).1,
   ((resume_outputs_bijection registry0 pending0).2 (by decide)).2.2.1⟩

/-- Claim C8 (dispatcher modelled from the spec): the dispatcher is total —
every invocation yields a tool output for the requested call id, so no
failure propagates to the run driver — and a schema-validation failure, a
raised handler exception, or a handler timeout each become a structured
error output for that call id; a call's outcome never affects the outputs of
the other calls of its batch. -/
theorem dispatcher_contains_errors (registry : String → Option RegisteredTool)
    (tc : ToolCall) (t : RegisteredTool) :
    (invoke registry tc).tool_call_id = tc.id ∧
    (registry tc.name = some t →
      (t.schemaOk tc.args = false →
        invoke registry tc = ⟨tc.id, .error "schema validation failed"⟩) ∧
      (t.schemaOk tc.args = true → ∀ m, t.run tc.args = .raised m →
        invoke registry tc = ⟨tc.id, .error m⟩) ∧
      (t.schemaOk tc.args = true → t.run tc.args = .timeout →
        invoke registry tc = ⟨tc.id, .error "handler timeout"⟩)) ∧
    (∀ pre post, collectOutputs registry (pre ++ tc :: post) =
      collectOutputs registry pre ++
        invoke registry tc :: collectOutputs registry post) := by
  refine ⟨invoke_tool_call_id registry tc, ?_, ?_⟩
  · intro hr
    refine ⟨fun hs => ?_, fun hs m hm => ?_, fun hs hto => ?_⟩
    · simp [invoke, hr, hs]
    · simp [invoke, hr, hs, hm]
    · simp [invoke, hr, hs, hto]
  · intro pre post
    rw [collectOutputs_append]
    rfl

/-- Claim C8 witness: a raising handler becomes a structured error output for
its call id, and the surrounding batch is processed independently of it. -/
theorem dispatcher_contains_errors_witness :
    invoke registry0 tcBoom = ⟨tcBoom.id, .error "kaput"⟩ ∧
    collectOutputs registry0
        ([⟨"id1", "echo", "x"⟩] ++ tcBoom :: [⟨"id3", "echo", "z"⟩]) =
      collectOutputs registry0 [⟨"id1", "echo", "x"⟩] ++
        invoke registry0 tcBoom :: collectOutputs registry0 [⟨"id3", "echo", "z"⟩] :=
  ⟨(((dispatcher_contains_errors registry0 tcBoom toolBoom).2.1 rfl).2.1
      rfl "kaput" rfl),
   ((dispatcher_contains_errors registry0 tcBoom toolBoom).2.2
     [⟨"id1", "echo", "x"⟩] [⟨"id3", "echo", "z"⟩])⟩

/-- Claim C9: when several listed agents share the configured name, startup
deterministically updates the first in listing order — only that agent's id
is resolved, the single update is the whole effect trace, and later
same-named agents are untouched. -/
theorem startup_updates_first_match (env : Env)
    (parse : String → Except String Json) (dir : List (String × String))
    (createdId : String) (ts : List ToolDef)
    (pre : List Agent) (a : Agent) (post : List Agent)
    (ht : loadAllTools parse dir = .ok ts)
    (hpre : ∀ b ∈ pre, (b.name == env "AZURE_OPENAI_AGENT_NAME") = false)
    (ha : (a.name == env "AZURE_OPENAI_AGENT_NAME") = true) :
    startup env parse dir createdId ⟨pre ++ a :: post, false⟩ =
      (.ok ⟨selectStorage env, ts, a.id,
        ⟨⟨selectStorage env⟩, ⟨selectStorage env⟩, a.id⟩⟩,
       [.updateAgent a.id ts]) := by
  have hfind : (pre ++ a :: post).find?
      (fun b => b.name == env "AZURE_OPENAI_AGENT_NAME") = some a :=
    find_first_of_prefix_none _ pre a post hpre ha
  simp [startup, ht, provision, hfind]

/-- Claim C9 witness: with two same-named agents after a non-matching one,
startup updates exactly the first of them. -/
theorem startup_updates_first_match_witness :
    startup env1 parse0 [] "cid"
        ⟨[⟨"a1", some "other"⟩, ⟨"a2", some "travel-agent"⟩,
          ⟨"a3", some "travel-agent"⟩], false⟩ =
      (.ok ⟨selectStorage env1, builtinTools, "a2",
        ⟨⟨selectStorage env1⟩, ⟨selectStorage env1⟩, "a2"⟩⟩,
       [.updateAgent "a2" builtinTools]) :=
  startup_updates_first_match env1 parse0 [] "cid" builtinTools
    [⟨"a1", some "other"⟩] ⟨"a2", some "travel-agent"⟩
    [⟨"a3", some "travel-agent"⟩] rfl (by decide) (by decide)

/-- Claim C10: a .json file in the tools directory whose contents fail to
parse aborts startup with the uncaught parse error: the result is an error,
the effect trace is empty (no agent was created or updated), and no bot is
constructed. -/
theorem bad_descriptor_aborts_startup (env : Env)
    (parse : String → Except String Json) (dir : List (String × String))
    (createdId : String) (agents : ListAgentsResult)
    (f : String × String) (e : String)
    (hf : f ∈ dir) (hj : pyEndsWith f.1 ".json" = true)
    (he : parse f.2 = .error e) :
    ∃ e', startup env parse dir createdId agents = (.error e', []) := by
  obtain ⟨e', he'⟩ := loadToolsLoop_error_of_bad parse f e dir builtinTools hf hj he
  have hload : loadAllTools parse dir = .error e' := he'
  exact ⟨e', by simp [startup, hload]⟩

/-- Claim C10 witness: a directory whose second descriptor file is invalid
JSON makes startup fail with an empty effect trace. -/
theorem bad_descriptor_aborts_startup_witness :
    (startup envNone parseBad dirBad "cid" ⟨[], false⟩).2 = [] ∧
    (startup envNone parseBad dirBad "cid" ⟨[], false⟩).1 = .error "boom" := by
  obtain ⟨e', he'⟩ := bad_descriptor_aborts_startup envNone parseBad dirBad "cid"
    ⟨[], false⟩ ("bad.json", "BAD") "boom" (by decide) (by decide) rfl
  have hcomp : startup envNone parseBad dirBad "cid" ⟨[], false⟩ =
      (.error "boom", []) := rfl
  exact ⟨by rw [he'], by rw [hcomp]⟩

end TravelAgent
